import Mathlib

/-!
Verification of the Maker IoT backend (`app.py`): activation-code redemption,
credential-authenticated telemetry ingestion, and the liveness status deriver.

The embedding models the SQLite-backed state as explicit record lists and each
FastAPI handler as a pure function from state to (response, state).  Every call
to `datetime.utcnow()` in the source is a distinct clock read, so each handler
takes one timestamp parameter per `utcnow()` call it performs, in source order.
`secrets.token_urlsafe` (the generated api key) is passed in as a parameter.
A `commitOk` flag models whether the single `db.commit()` of a handler
succeeds; on failure the handler rolls back (state unchanged) and returns the
500 error, as in the source's `except`/`db.rollback()` blocks.
-/

namespace MakerIoT

/-- Row of the `activation_codes` table (`ActivationCode` model, app.py lines 36-46).
Timestamps are rationals (seconds, arbitrary epoch); `used_by_mac` and `used_at`
are nullable. -/
structure ActivationCode where
  code : String
  sede_id : String
  sede_nombre : String
  is_used : Bool
  used_by_mac : Option String
  used_at : Option Rat
  created_at : Rat
deriving DecidableEq, Repr

/-- Row of the `devices` table (`Device` model, app.py lines 48-57). -/
structure Device where
  mac_address : String
  sede_id : String
  sede_nombre : String
  api_key : String
  activated_at : Rat
  last_seen : Rat
deriving DecidableEq, Repr

/-- Row of the `sensor_data` table (`SensorData` model, app.py lines 59-66). -/
structure SensorData where
  mac_address : String
  temperatura : Rat
  humedad : Rat
  timestamp : Rat
deriving DecidableEq, Repr

/-- The whole persistent state: the three tables. -/
structure DB where
  codes : List ActivationCode
  devices : List Device
  sensor_data : List SensorData
deriving DecidableEq, Repr

/-- Outcome of a handler: a JSON success payload or `HTTPException(status, detail)`. -/
inductive Resp (α : Type) where
  | ok : α → Resp α
  | httpError : Nat → String → Resp α
deriving DecidableEq, Repr

/-- Python's `str.upper()` on the ASCII range: uppercase every character. -/
def upper (s : String) : String :=
  String.mk (s.data.map Char.toUpper)

/-- Python string interpolation of a nullable column (`None` prints as "None"). -/
def optMacStr : Option String → String
  | some m => m
  | none => "None"

/-- SQLAlchemy mutation of the single row returned by `.first()`: update the
first list element satisfying `p`, leave everything else unchanged. -/
def updateFirst (p : α → Bool) (f : α → α) : List α → List α
  | [] => []
  | x :: xs => if p x then f x :: xs else x :: updateFirst p f xs

/-- The three-field mutation at app.py lines 206-208: mark a code used by `mac`
at clock read `tU`. -/
def markUsed (mac : String) (tU : Rat) (a : ActivationCode) : ActivationCode :=
  { a with is_used := true, used_by_mac := some mac, used_at := some tU }

/-- Success payload of `POST /api/activate`. -/
structure ActivateOk where
  success : Bool
  sede_id : String
  sede_nombre : String
  api_key : String
  message : String
deriving DecidableEq, Repr

/-- Success payload of `POST /api/updates`. -/
structure IngestOk where
  success : Bool
  message : String
  sede : String
  mac_address : String
  timestamp : Rat
deriving DecidableEq, Repr

/-- Success payload of `POST /api/activation-codes`. -/
structure CreateOk where
  success : Bool
  code : String
  sede_nombre : String
  message : String
deriving DecidableEq, Repr

/-- `activate_device` (app.py lines 156-226).  `api_key` is the value produced
by `generate_api_key()`; `tU` is the `utcnow()` read at line 208 (`used_at`),
`tA` and `tS` are the `utcnow()` reads taken at insert for the new device's
`activated_at` and `last_seen` column defaults; `commitOk` tells whether the
`db.commit()` at line 210 succeeds. -/
def activate_device (db : DB) (code mac api_key : String) (tU tA tS : Rat)
    (commitOk : Bool) : Resp ActivateOk × DB :=
  match db.codes.find? (fun a => a.code == upper code) with
  | none => (Resp.httpError 404 "Código de activación no encontrado", db)
  | some activation =>
    if activation.is_used then
      (Resp.httpError 422 ("Código ya utilizado por " ++ optMacStr activation.used_by_mac), db)
    else
      match db.devices.find? (fun d => d.mac_address == mac) with
      | some existing_device =>
        (Resp.ok ⟨true, existing_device.sede_id, existing_device.sede_nombre,
          existing_device.api_key, "Dispositivo ya estaba registrado"⟩, db)
      | none =>
        if commitOk then
          (Resp.ok ⟨true, activation.sede_id, activation.sede_nombre, api_key,
            "Dispositivo activado exitosamente"⟩,
           { db with
             devices := db.devices ++
               [⟨mac, activation.sede_id, activation.sede_nombre, api_key, tA, tS⟩],
             codes := updateFirst (fun a => a.code == upper code) (markUsed mac tU) db.codes })
        else
          (Resp.httpError 500 "Error interno: commit failed", db)

/-- The pair of writes of `activate_device`'s success path (device insert at
line 203 plus code consumption at lines 206-208), as one unit. -/
def activateWrites (db : DB) (code mac api_key : String) (tU tA tS : Rat) : DB :=
  match db.codes.find? (fun a => a.code == upper code) with
  | none => db
  | some activation =>
    { db with
      devices := db.devices ++
        [⟨mac, activation.sede_id, activation.sede_nombre, api_key, tA, tS⟩],
      codes := updateFirst (fun a => a.code == upper code) (markUsed mac tU) db.codes }

/-- `receive_sensor_data` (app.py lines 228-275).  The `X-API-Key` header is
`none` when absent; `tS` is the `utcnow()` read at line 257 (`last_seen`),
`tR` the read taken at insert for the reading's `timestamp` column default,
`tP` the read at line 266 for the response payload. -/
def receive_sensor_data (db : DB) (x_api_key : Option String) (temperatura humedad : Rat)
    (tS tR tP : Rat) (commitOk : Bool) : Resp IngestOk × DB :=
  match x_api_key with
  | none => (Resp.httpError 401 "API Key requerida en header X-API-Key", db)
  | some k =>
    if k == "" then
      (Resp.httpError 401 "API Key requerida en header X-API-Key", db)
    else
      match db.devices.find? (fun d => d.api_key == k) with
      | none => (Resp.httpError 401 "API Key inválida", db)
      | some device =>
        if commitOk then
          (Resp.ok ⟨true, "Datos recibidos correctamente", device.sede_nombre,
            device.mac_address, tP⟩,
           { db with
             sensor_data := db.sensor_data ++
               [⟨device.mac_address, temperatura, humedad, tR⟩],
             devices := updateFirst (fun d => d.api_key == k)
               (fun d => { d with last_seen := tS }) db.devices })
        else
          (Resp.httpError 500 "Error interno: commit failed", db)

/-- `create_activation_code` (app.py lines 320-356).  `tC` is the clock read
for the new row's `created_at` column default. -/
def create_activation_code (db : DB) (code sede_id sede_nombre : String) (tC : Rat)
    (commitOk : Bool) : Resp CreateOk × DB :=
  match db.codes.find? (fun a => a.code == upper code) with
  | some _ => (Resp.httpError 409 "Código ya existe", db)
  | none =>
    if commitOk then
      (Resp.ok ⟨true, upper code, sede_nombre, "Código de activación creado exitosamente"⟩,
       { db with codes := db.codes ++ [⟨upper code, sede_id, sede_nombre, false, none, none, tC⟩] })
    else
      (Resp.httpError 500 "Error interno: commit failed", db)

/-- `db.query(SensorData).count()` (app.py line 389): the spec's `countReadings()`. -/
def countReadings (db : DB) : Nat :=
  db.sensor_data.length

/-- Operator-facing liveness states; the panel renders them as the badges
"Online", "Inactivo" and "Offline" (app.py lines 597-602). -/
inductive Status where
  | online
  | stale
  | offline
deriving DecidableEq, Repr

/-- The status deriver of app.py lines 597-602, as a function of
`time_diff = (utcnow() - last_seen).total_seconds()`. -/
def deriveStatus (time_diff : Rat) : Status :=
  if time_diff < 600 then Status.online
  else if time_diff < 3600 then Status.stale
  else Status.offline

/-- Per-device status as computed at app.py line 596. -/
def deviceStatus (now : Rat) (d : Device) : Status :=
  deriveStatus (now - d.last_seen)

/-- One state-mutating request, with all its non-deterministic inputs
(clock reads, generated key, commit outcome) made explicit. -/
inductive Op where
  | activate (code mac api_key : String) (tU tA tS : Rat) (commitOk : Bool)
  | ingest (x_api_key : Option String) (temperatura humedad tS tR tP : Rat) (commitOk : Bool)
  | createCode (code sede_id sede_nombre : String) (tC : Rat) (commitOk : Bool)

/-- State transition of one request.  The remaining endpoints (`root`,
`health_check`, `list_devices`, `get_sensor_data`, `list_activation_codes`,
`admin_panel`) only read the database. -/
def step (db : DB) : Op → DB
  | Op.activate c m k tU tA tS ok => (activate_device db c m k tU tA tS ok).2
  | Op.ingest k t h tS tR tP ok => (receive_sensor_data db k t h tS tR tP ok).2
  | Op.createCode c sid sn tC ok => (create_activation_code db c sid sn tC ok).2

/-- The used-markers invariant on one activation-code row. -/
def codeInv (a : ActivationCode) : Prop :=
  (a.is_used = true ↔ a.used_by_mac.isSome = true) ∧
  (a.is_used = true ↔ a.used_at.isSome = true)

instance (a : ActivationCode) : Decidable (codeInv a) := by
  unfold codeInv
  infer_instance

/-- The used-markers invariant over the whole table. -/
def dbCodeInv (db : DB) : Prop :=
  ∀ a ∈ db.codes, codeInv a

instance (db : DB) : Decidable (dbCodeInv db) := by
  unfold dbCodeInv
  infer_instance

/-! ## Helper lemmas -/

/-- Packing a valid scalar value and unpacking it gives the value back. -/
theorem toNat_ofNat_valid {n : Nat} (h : n.isValidChar) : (Char.ofNat n).toNat = n := by
  rw [Char.ofNat, dif_pos h]
  rfl

/-- ASCII uppercasing is idempotent on characters. -/
theorem char_toUpper_idem (c : Char) : c.toUpper.toUpper = c.toUpper := by
  unfold Char.toUpper
  by_cases h : c.toNat ≥ 97 ∧ c.toNat ≤ 122
  · rw [if_pos h]
    have hv : (c.toNat - 32).isValidChar := Or.inl (by omega)
    rw [if_neg]
    rw [toNat_ofNat_valid hv]
    omega
  · rw [if_neg h, if_neg h]

/-- `upper` is idempotent on strings. -/
theorem upper_idem (s : String) : upper (upper s) = upper s := by
  have h : Char.toUpper ∘ Char.toUpper = Char.toUpper := funext char_toUpper_idem
  simp only [upper, List.map_map, h]

/-- If `find?` returns `a` and `f` preserves the predicate on `a`, then after
updating the first match the same lookup returns `f a`. -/
theorem find?_updateFirst {α} (p : α → Bool) (f : α → α) (l : List α) (a : α)
    (h : l.find? p = some a) (hf : p (f a) = true) :
    (updateFirst p f l).find? p = some (f a) := by
  induction l with
  | nil => simp at h
  | cons x xs ih =>
    by_cases hp : p x
    · rw [List.find?_cons_of_pos _ hp] at h
      cases h
      rw [updateFirst, if_pos hp, List.find?_cons_of_pos _ hf]
    · rw [List.find?_cons_of_neg _ hp] at h
      rw [updateFirst, if_neg hp, List.find?_cons_of_neg _ hp]
      exact ih h

/-- Each position of `updateFirst p f l` holds either the old element, or `f`
of the old element, the latter only at the position `find?` returns. -/
theorem getElem?_updateFirst {α} (p : α → Bool) (f : α → α) (l : List α) (i : Nat) :
    (updateFirst p f l)[i]? = l[i]? ∨
    ∃ x, l[i]? = some x ∧ l.find? p = some x ∧ (updateFirst p f l)[i]? = some (f x) := by
  induction l generalizing i with
  | nil => left; rfl
  | cons x xs ih =>
    by_cases hp : p x
    · rw [updateFirst, if_pos hp]
      cases i with
      | zero =>
        right
        exact ⟨x, List.getElem?_cons_zero, List.find?_cons_of_pos _ hp, List.getElem?_cons_zero⟩
      | succ j =>
        left
        simp
    · rw [updateFirst, if_neg hp]
      cases i with
      | zero =>
        left
        rw [List.getElem?_cons_zero, List.getElem?_cons_zero]
      | succ j =>
        rcases ih j with h | ⟨y, hy, hf, hy2⟩
        · left
          simpa using h
        · right
          refine ⟨y, by simpa using hy, ?_, by simpa using hy2⟩
          rw [List.find?_cons_of_neg _ hp]
          exact hf

/-- Every element of `updateFirst p f l` is an element of `l` or the image
under `f` of an element of `l`. -/
theorem mem_updateFirst {α} {b : α} (p : α → Bool) (f : α → α) (l : List α)
    (h : b ∈ updateFirst p f l) : b ∈ l ∨ ∃ x, x ∈ l ∧ b = f x := by
  induction l with
  | nil => simp [updateFirst] at h
  | cons x xs ih =>
    rw [updateFirst] at h
    by_cases hp : p x
    · rw [if_pos hp] at h
      rcases List.mem_cons.mp h with h | h
      · right; exact ⟨x, List.mem_cons_self x xs, h⟩
      · left; exact List.mem_cons_of_mem x h
    · rw [if_neg hp] at h
      rcases List.mem_cons.mp h with h | h
      · left; exact h ▸ List.mem_cons_self x xs
      · rcases ih h with h | ⟨y, hy, hb⟩
        · left; exact List.mem_cons_of_mem x h
        · right; exact ⟨y, List.mem_cons_of_mem x hy, hb⟩

/-! ## Concrete sample states used by witnesses and counterexamples -/

/-- A state with one used code (consumed by device identity "M1") and one
registered device "M2". -/
def dbUsedCode : DB :=
  ⟨[⟨"ABC-123", "S1", "Site One", true, some "M1", some 0, 0⟩],
   [⟨"M2", "S1", "Site One", "KEY2", 0, 0⟩], []⟩

/-- A state with one unused code and one registered device "M2". -/
def dbUnusedWithDev : DB :=
  ⟨[⟨"ABC-123", "S1", "Site One", false, none, none, 0⟩],
   [⟨"M2", "S1", "Site One", "KEY2", 0, 0⟩], []⟩

/-- A state with one unused code and no devices. -/
def dbUnusedNoDev : DB :=
  ⟨[⟨"ABC-123", "S1", "Site One", false, none, none, 0⟩], [], []⟩

/-- A state with one registered device holding credential "KEY1". -/
def dbOneDev : DB :=
  ⟨[], [⟨"AA:BB:CC", "S1", "Site One", "KEY1", 0, 0⟩], []⟩

/-! ## Claim theorems -/

/-- C1, counterexample: the claim says `activate` with a registered identity
succeeds for any existing code "whether that code is used or unused".  The code
checks `activation.is_used` (line 172) before the existing-device lookup
(line 179), so with a used code and a registered device the call fails with
422 instead of returning the stored credential. -/
theorem activate_usedCode_existingDevice_errors422 :
    activate_device dbUsedCode "ABC-123" "M2" "NEWKEY" 1 1 1 true
      = (Resp.httpError 422 "Código ya utilizado por M1", dbUsedCode) := by
  decide

/-- C1, amended: for every registered device, `activate` with that identity and
any existing unused code succeeds and returns the device's stored credential
(the same credential every time, since the state is also left unchanged),
without creating a new device; a used code instead fails with 422 before the
device lookup is reached. -/
theorem activate_existingDevice_unusedCode_idempotent (db : DB)
    (code mac api_key : String) (tU tA tS : Rat) (commitOk : Bool)
    (a : ActivationCode) (dev : Device)
    (hc : db.codes.find? (fun x => x.code == upper code) = some a)
    (hu : a.is_used = false)
    (hd : db.devices.find? (fun d => d.mac_address == mac) = some dev) :
    activate_device db code mac api_key tU tA tS commitOk
      = (Resp.ok ⟨true, dev.sede_id, dev.sede_nombre, dev.api_key,
          "Dispositivo ya estaba registrado"⟩, db) := by
  unfold activate_device
  rw [hc]
  simp [hu, hd]

/-- C1, witness: re-activating the registered device "M2" with the unused code
(sent lowercase) returns its stored credential "KEY2" and changes nothing. -/
theorem activate_existingDevice_unusedCode_idempotent_witness :
    activate_device dbUnusedWithDev "abc-123" "M2" "NEWKEY" 1 2 3 true
      = (Resp.ok ⟨true, "S1", "Site One", "KEY2",
          "Dispositivo ya estaba registrado"⟩, dbUnusedWithDev) :=
  activate_existingDevice_unusedCode_idempotent dbUnusedWithDev "abc-123" "M2" "NEWKEY"
    1 2 3 true ⟨"ABC-123", "S1", "Site One", false, none, none, 0⟩
    ⟨"M2", "S1", "Site One", "KEY2", 0, 0⟩ (by decide) rfl (by decide)

/-- C5: `ingest` with a missing header, with an empty credential, and with a
non-empty credential matching no device all fail with status 401
(`AuthenticationError`), leaving the state unchanged in every case (no reading
appended, no device touched). -/
theorem ingest_auth_errors (db : DB) (k : String) (temperatura humedad tS tR tP : Rat)
    (commitOk : Bool) (hk : k ≠ "")
    (hnone : db.devices.find? (fun d => d.api_key == k) = none) :
    receive_sensor_data db none temperatura humedad tS tR tP commitOk
      = (Resp.httpError 401 "API Key requerida en header X-API-Key", db) ∧
    receive_sensor_data db (some "") temperatura humedad tS tR tP commitOk
      = (Resp.httpError 401 "API Key requerida en header X-API-Key", db) ∧
    receive_sensor_data db (some k) temperatura humedad tS tR tP commitOk
      = (Resp.httpError 401 "API Key inválida", db) := by
  refine ⟨rfl, rfl, ?_⟩
  simp [receive_sensor_data, hnone, hk]

/-- C5, witness: at the concrete one-device state, the missing, empty, and
unknown credential all produce the 401 error with the state unchanged. -/
theorem ingest_auth_errors_witness :
    receive_sensor_data dbOneDev none 20 50 1 2 3 true
      = (Resp.httpError 401 "API Key requerida en header X-API-Key", dbOneDev) ∧
    receive_sensor_data dbOneDev (some "") 20 50 1 2 3 true
      = (Resp.httpError 401 "API Key requerida en header X-API-Key", dbOneDev) ∧
    receive_sensor_data dbOneDev (some "WRONG") 20 50 1 2 3 true
      = (Resp.httpError 401 "API Key inválida", dbOneDev) :=
  ingest_auth_errors dbOneDev "WRONG" 20 50 1 2 3 true (by decide) (by decide)

/-- C6: the status derivation is a pure function of the difference
`now - lastSeenAt` in seconds: below 600 it yields ONLINE, from 600 up to
(excluding) 3600 it yields STALE, and from 3600 on it yields OFFLINE. -/
theorem deriveStatus_thresholds (d : Rat) :
    (d < 600 → deriveStatus d = Status.online) ∧
    (600 ≤ d → d < 3600 → deriveStatus d = Status.stale) ∧
    (3600 ≤ d → deriveStatus d = Status.offline) := by
  refine ⟨fun h => ?_, fun h1 h2 => ?_, fun h => ?_⟩
  · rw [deriveStatus, if_pos h]
  · rw [deriveStatus, if_neg (by linarith), if_pos h2]
  · rw [deriveStatus, if_neg (by linarith), if_neg (by linarith)]

/-- C6, witness: a difference of 100 s is ONLINE, 1000 s is STALE, and
10000 s is OFFLINE. -/
theorem deriveStatus_thresholds_witness :
    deriveStatus 100 = Status.online ∧ deriveStatus 1000 = Status.stale ∧
    deriveStatus 10000 = Status.offline :=
  ⟨(deriveStatus_thresholds 100).1 (by norm_num),
   (deriveStatus_thresholds 1000).2.1 (by norm_num) (by norm_num),
   (deriveStatus_thresholds 10000).2.2 (by norm_num)⟩

/-- C7: when `activate` takes the existing-device branch (identity already
registered, code found and unused), the whole state — in particular the
presented code with its `is_used`, `used_by_mac` and `used_at` fields — is
exactly what it was before the call: the unused code stays unused. -/
theorem activate_existingDevice_code_untouched (db : DB)
    (code mac api_key : String) (tU tA tS : Rat) (commitOk : Bool)
    (a : ActivationCode) (dev : Device)
    (hc : db.codes.find? (fun x => x.code == upper code) = some a)
    (hu : a.is_used = false)
    (hd : db.devices.find? (fun d => d.mac_address == mac) = some dev) :
    (activate_device db code mac api_key tU tA tS commitOk).2 = db ∧
    (activate_device db code mac api_key tU tA tS commitOk).2.codes.find?
      (fun x => x.code == upper code) = some a ∧
    a.is_used = false := by
  have hmain : (activate_device db code mac api_key tU tA tS commitOk).2 = db := by
    unfold activate_device
    rw [hc]
    simp [hu, hd]
  refine ⟨hmain, ?_, hu⟩
  rw [hmain]
  exact hc

/-- C7, witness: re-activating the registered device "M2" with the unused code
leaves the state, and in particular the code row, untouched. -/
theorem activate_existingDevice_code_untouched_witness :
    (activate_device dbUnusedWithDev "ABC-123" "M2" "NEWKEY" 1 2 3 true).2
      = dbUnusedWithDev ∧
    (activate_device dbUnusedWithDev "ABC-123" "M2" "NEWKEY" 1 2 3 true).2.codes.find?
      (fun x => x.code == upper "ABC-123")
      = some ⟨"ABC-123", "S1", "Site One", false, none, none, 0⟩ ∧
    (⟨"ABC-123", "S1", "Site One", false, none, none, 0⟩ : ActivationCode).is_used = false :=
  activate_existingDevice_code_untouched dbUnusedWithDev "ABC-123" "M2" "NEWKEY"
    1 2 3 true ⟨"ABC-123", "S1", "Site One", false, none, none, 0⟩
    ⟨"M2", "S1", "Site One", "KEY2", 0, 0⟩ (by decide) rfl (by decide)

/-- Helper: a found, already-used code makes `activate` fail with 422 naming
the stored consuming identity, without touching the state. -/
theorem activate_foundUsed_errors (db : DB) (code mac api_key : String)
    (tU tA tS : Rat) (commitOk : Bool) (a : ActivationCode)
    (hc : db.codes.find? (fun x => x.code == upper code) = some a)
    (hu : a.is_used = true) :
    activate_device db code mac api_key tU tA tS commitOk
      = (Resp.httpError 422 ("Código ya utilizado por " ++ optMacStr a.used_by_mac), db) := by
  unfold activate_device
  rw [hc]
  simp [hu]

/-- Helper: the success branch of `activate` (code found unused, identity
absent, commit succeeds) applies exactly the device insert and the code
consumption. -/
theorem activate_success_state (db : DB) (code mac api_key : String) (tU tA tS : Rat)
    (a : ActivationCode)
    (hc : db.codes.find? (fun x => x.code == upper code) = some a)
    (hu : a.is_used = false)
    (hd : db.devices.find? (fun d => d.mac_address == mac) = none) :
    activate_device db code mac api_key tU tA tS true
      = (Resp.ok ⟨true, a.sede_id, a.sede_nombre, api_key, "Dispositivo activado exitosamente"⟩,
         { db with
           devices := db.devices ++ [⟨mac, a.sede_id, a.sede_nombre, api_key, tA, tS⟩],
           codes := updateFirst (fun x => x.code == upper code) (markUsed mac tU) db.codes }) := by
  unfold activate_device
  rw [hc]
  simp [hu, hd]

/-- C2: for an unused code and an identity not yet registered, `activate`
consumes the code exactly once — the lookup now returns the code with
`is_used = true`, `used_by_mac` the consuming identity and `used_at` the clock
read — and every later `activate` with the same code and a different identity
fails with 422 whose detail names the consuming identity and leaves the state
unchanged. -/
theorem activate_consume_then_conflict (db : DB) (code mac1 mac2 api_key1 api_key2 : String)
    (tU tA tS tU2 tA2 tS2 : Rat) (ok2 : Bool) (a : ActivationCode)
    (hc : db.codes.find? (fun x => x.code == upper code) = some a)
    (hu : a.is_used = false)
    (hd : db.devices.find? (fun d => d.mac_address == mac1) = none)
    (hne : mac2 ≠ mac1) :
    (activate_device db code mac1 api_key1 tU tA tS true).2.codes.find?
        (fun x => x.code == upper code) = some (markUsed mac1 tU a) ∧
    activate_device (activate_device db code mac1 api_key1 tU tA tS true).2
        code mac2 api_key2 tU2 tA2 tS2 ok2
      = (Resp.httpError 422 ("Código ya utilizado por " ++ mac1),
         (activate_device db code mac1 api_key1 tU tA tS true).2) := by
  have hpa : (fun x : ActivationCode => x.code == upper code) (markUsed mac1 tU a) = true := by
    simpa [markUsed] using List.find?_some hc
  have hfind : (activate_device db code mac1 api_key1 tU tA tS true).2.codes.find?
      (fun x => x.code == upper code) = some (markUsed mac1 tU a) := by
    rw [activate_success_state db code mac1 api_key1 tU tA tS a hc hu hd]
    exact find?_updateFirst _ _ _ _ hc hpa
  refine ⟨hfind, ?_⟩
  rw [activate_foundUsed_errors _ code mac2 api_key2 tU2 tA2 tS2 ok2
    (markUsed mac1 tU a) hfind rfl]
  rfl

/-- C2, witness: consuming the unused code with identity "M1" marks it used by
"M1" at time 1, and the retry with identity "M9" gets the 422 naming "M1". -/
theorem activate_consume_then_conflict_witness :
    (activate_device dbUnusedNoDev "ABC-123" "M1" "KEY9" 1 2 3 true).2.codes.find?
        (fun x => x.code == upper "ABC-123")
      = some (markUsed "M1" 1 ⟨"ABC-123", "S1", "Site One", false, none, none, 0⟩) ∧
    activate_device (activate_device dbUnusedNoDev "ABC-123" "M1" "KEY9" 1 2 3 true).2
        "ABC-123" "M9" "KEY10" 4 5 6 true
      = (Resp.httpError 422 "Código ya utilizado por M1",
         (activate_device dbUnusedNoDev "ABC-123" "M1" "KEY9" 1 2 3 true).2) :=
  activate_consume_then_conflict dbUnusedNoDev "ABC-123" "M1" "M9" "KEY9" "KEY10"
    1 2 3 4 5 6 true ⟨"ABC-123", "S1", "Site One", false, none, none, 0⟩
    (by decide) rfl rfl (by decide)

/-- C3, counterexample: the reading's `timestamp` and the device's `last_seen`
come from two distinct `utcnow()` reads (the column default at insert versus
line 257), so a successful ingest whose two clock reads differ stores a reading
timestamp different from the updated `last_seen` — against the claim that
`lastSeenAt` is updated to the same timestamp assigned to the appended
Reading. -/
theorem ingest_reading_timestamp_ne_lastSeen :
    (receive_sensor_data dbOneDev (some "KEY1") 20 50 3 4 5 true).2.sensor_data
      = [⟨"AA:BB:CC", 20, 50, 4⟩] ∧
    (receive_sensor_data dbOneDev (some "KEY1") 20 50 3 4 5 true).2.devices
      = [⟨"AA:BB:CC", "S1", "Site One", "KEY1", 0, 3⟩] ∧
    ¬ ((⟨"AA:BB:CC", 20, 50, 4⟩ : SensorData).timestamp
        = (⟨"AA:BB:CC", "S1", "Site One", "KEY1", 0, 3⟩ : Device).last_seen) := by
  decide

/-- C3, amended: every successful ingest appends exactly one Reading
(`countReadings` increases by exactly 1) carrying the clock read taken at
insert, and updates the owning device's `last_seen` to the clock read taken at
line 257 of the same call; the two reads are distinct `utcnow()` calls and need
not be equal. -/
theorem ingest_appends_one_reading (db : DB) (k : String)
    (temperatura humedad tS tR tP : Rat) (dev : Device)
    (hk : k ≠ "")
    (hd : db.devices.find? (fun d => d.api_key == k) = some dev) :
    (receive_sensor_data db (some k) temperatura humedad tS tR tP true).2.sensor_data
      = db.sensor_data ++ [⟨dev.mac_address, temperatura, humedad, tR⟩] ∧
    countReadings (receive_sensor_data db (some k) temperatura humedad tS tR tP true).2
      = countReadings db + 1 ∧
    (receive_sensor_data db (some k) temperatura humedad tS tR tP true).2.devices.find?
      (fun d => d.api_key == k) = some { dev with last_seen := tS } := by
  have hbody : receive_sensor_data db (some k) temperatura humedad tS tR tP true
      = (Resp.ok ⟨true, "Datos recibidos correctamente", dev.sede_nombre,
          dev.mac_address, tP⟩,
         { db with
           sensor_data := db.sensor_data ++ [⟨dev.mac_address, temperatura, humedad, tR⟩],
           devices := updateFirst (fun d => d.api_key == k)
             (fun d => { d with last_seen := tS }) db.devices }) := by
    simp [receive_sensor_data, hk, hd]
  have hpd : (fun d : Device => d.api_key == k)
      (⟨dev.mac_address, dev.sede_id, dev.sede_nombre, dev.api_key, dev.activated_at, tS⟩ : Device)
      = true := by
    simpa using List.find?_some hd
  refine ⟨by rw [hbody], by rw [hbody]; simp [countReadings], ?_⟩
  rw [hbody]
  exact find?_updateFirst _ _ _ _ hd hpd

/-- C3, witness: ingesting against credential "KEY1" with clock reads 3
(for `last_seen`) and 4 (for the reading) appends exactly one reading and
updates the device's `last_seen` to 3. -/
theorem ingest_appends_one_reading_witness :
    (receive_sensor_data dbOneDev (some "KEY1") 20 50 3 4 5 true).2.sensor_data
      = dbOneDev.sensor_data ++ [⟨"AA:BB:CC", 20, 50, 4⟩] ∧
    countReadings (receive_sensor_data dbOneDev (some "KEY1") 20 50 3 4 5 true).2
      = countReadings dbOneDev + 1 ∧
    (receive_sensor_data dbOneDev (some "KEY1") 20 50 3 4 5 true).2.devices.find?
      (fun d => d.api_key == "KEY1")
      = some ⟨"AA:BB:CC", "S1", "Site One", "KEY1", 0, 3⟩ :=
  ingest_appends_one_reading dbOneDev "KEY1" 20 50 3 4 5
    ⟨"AA:BB:CC", "S1", "Site One", "KEY1", 0, 0⟩ (by decide) rfl

/-- Helper: after any `activate` call the state is either untouched, or the
success-path state with both writes; in the latter case the code was found
unused, the identity absent, and the commit succeeded. -/
theorem activate_state_cases (db : DB) (code mac api_key : String) (tU tA tS : Rat)
    (commitOk : Bool) :
    (activate_device db code mac api_key tU tA tS commitOk).2 = db ∨
    ∃ a, db.codes.find? (fun x => x.code == upper code) = some a ∧ a.is_used = false ∧
      db.devices.find? (fun d => d.mac_address == mac) = none ∧ commitOk = true ∧
      (activate_device db code mac api_key tU tA tS commitOk).2
        = { db with
            devices := db.devices ++ [⟨mac, a.sede_id, a.sede_nombre, api_key, tA, tS⟩],
            codes := updateFirst (fun x => x.code == upper code) (markUsed mac tU) db.codes } := by
  rcases hf : db.codes.find? (fun x => x.code == upper code) with _ | a
  · left
    unfold activate_device
    rw [hf]
  · by_cases hu : a.is_used
    · left
      unfold activate_device
      rw [hf]
      simp [hu]
    · rcases hd : db.devices.find? (fun d => d.mac_address == mac) with _ | dev
      · cases commitOk with
        | false =>
          left
          unfold activate_device
          rw [hf]
          simp [hu, hd]
        | true =>
          right
          refine ⟨a, hf, by simpa using hu, hd, rfl, ?_⟩
          unfold activate_device
          rw [hf]
          simp [hu, hd]
      · left
        unfold activate_device
        rw [hf]
        simp [hu, hd]

/-- C4: `activate` is atomic — after any call the state is either exactly the
pre-state or exactly the pre-state with both the device insert and the code
consumption applied (`activateWrites`); and when the commit fails the state is
rolled back to the pre-state. -/
theorem activate_atomic (db : DB) (code mac api_key : String) (tU tA tS : Rat)
    (commitOk : Bool) :
    ((activate_device db code mac api_key tU tA tS commitOk).2 = db ∨
     (activate_device db code mac api_key tU tA tS commitOk).2
       = activateWrites db code mac api_key tU tA tS) ∧
    (activate_device db code mac api_key tU tA tS false).2 = db := by
  constructor
  · rcases activate_state_cases db code mac api_key tU tA tS commitOk with
      h | ⟨a, hc, hu, hd, hok, h⟩
    · exact Or.inl h
    · right
      rw [h]
      unfold activateWrites
      rw [hc]
  · rcases activate_state_cases db code mac api_key tU tA tS false with
      h | ⟨a, hc, hu, hd, hok, h⟩
    · exact h
    · exact absurd hok (by simp)

/-- Helper: `receive_sensor_data` never touches the activation-code table. -/
theorem ingest_codes_unchanged (db : DB) (k : Option String) (temperatura humedad : Rat)
    (tS tR tP : Rat) (commitOk : Bool) :
    (receive_sensor_data db k temperatura humedad tS tR tP commitOk).2.codes = db.codes := by
  rcases k with _ | s
  · rfl
  · by_cases hs : s == ""
    · unfold receive_sensor_data
      simp [hs]
    · rcases hd : db.devices.find? (fun d => d.api_key == s) with _ | dev
      · unfold receive_sensor_data
        simp [hs, hd]
      · cases commitOk with
        | false =>
          unfold receive_sensor_data
          simp [hs, hd]
        | true =>
          unfold receive_sensor_data
          simp [hs, hd]

/-- Helper: `create_activation_code` either leaves the code table unchanged or
appends one fresh unused code with empty used-markers. -/
theorem create_code_state_cases (db : DB) (code sede_id sede_nombre : String) (tC : Rat)
    (commitOk : Bool) :
    (create_activation_code db code sede_id sede_nombre tC commitOk).2.codes = db.codes ∨
    (create_activation_code db code sede_id sede_nombre tC commitOk).2.codes
      = db.codes ++ [⟨upper code, sede_id, sede_nombre, false, none, none, tC⟩] := by
  rcases hf : db.codes.find? (fun x => x.code == upper code) with _ | a
  · cases commitOk with
    | false =>
      left
      unfold create_activation_code
      rw [hf]
      simp
    | true =>
      right
      unfold create_activation_code
      rw [hf]
      simp
  · left
    unfold create_activation_code
    rw [hf]

/-- C8: every state-mutating operation preserves the invariant that
`is_used = true` holds exactly when `used_by_mac` is non-null and exactly when
`used_at` is non-null; and a code row that is used is left entirely unchanged
by every operation (so no reachable sequence of operations ever makes a used
code unused again). -/
theorem codeInv_preserved (db : DB) (op : Op) (hinv : dbCodeInv db) :
    dbCodeInv (step db op) ∧
    ∀ (i : Nat) (x : ActivationCode), db.codes[i]? = some x → x.is_used = true → (step db op).codes[i]? = some x := by
  cases op with
  | activate code mac api_key tU tA tS ok =>
    rcases activate_state_cases db code mac api_key tU tA tS ok with h | ⟨a, hc, hu, _, _, h⟩
    · constructor
      · show dbCodeInv (activate_device db code mac api_key tU tA tS ok).2
        rw [h]
        exact hinv
      · intro i x hx _
        show (activate_device db code mac api_key tU tA tS ok).2.codes[i]? = some x
        rw [h]
        exact hx
    · have hcodes : (step db (Op.activate code mac api_key tU tA tS ok)).codes
          = updateFirst (fun x => x.code == upper code) (markUsed mac tU) db.codes := by
        show (activate_device db code mac api_key tU tA tS ok).2.codes = _
        rw [h]
      constructor
      · intro b hb
        rw [hcodes] at hb
        rcases mem_updateFirst _ _ _ hb with hb | ⟨x, hx, hbx⟩
        · exact hinv b hb
        · rw [hbx]
          simp [codeInv, markUsed]
      · intro i x hx hused
        rw [hcodes]
        rcases getElem?_updateFirst (fun x => x.code == upper code) (markUsed mac tU)
            db.codes i with hsame | ⟨y, hy, hfy, _⟩
        · rw [hsame]
          exact hx
        · have hxy : x = y := by
            rw [hx] at hy
            exact Option.some.injEq x y ▸ hy.symm ▸ rfl
          have hya : y = a := by
            rw [hfy] at hc
            exact Option.some.inj hc
          rw [hxy, hya] at hused
          rw [hused] at hu
          cases hu
  | ingest k temperatura humedad tS tR tP ok =>
    have hcodes : (step db (Op.ingest k temperatura humedad tS tR tP ok)).codes = db.codes :=
      ingest_codes_unchanged db k temperatura humedad tS tR tP ok
    constructor
    · intro b hb
      rw [hcodes] at hb
      exact hinv b hb
    · intro i x hx _
      rw [hcodes]
      exact hx
  | createCode code sede_id sede_nombre tC ok =>
    rcases create_code_state_cases db code sede_id sede_nombre tC ok with h | h
    · constructor
      · intro b hb
        rw [show (step db (Op.createCode code sede_id sede_nombre tC ok)).codes = db.codes from h] at hb
        exact hinv b hb
      · intro i x hx _
        rw [show (step db (Op.createCode code sede_id sede_nombre tC ok)).codes = db.codes from h]
        exact hx
    · constructor
      · intro b hb
        rw [show (step db (Op.createCode code sede_id sede_nombre tC ok)).codes
            = db.codes ++ [⟨upper code, sede_id, sede_nombre, false, none, none, tC⟩] from h] at hb
        rcases List.mem_append.mp hb with hb | hb
        · exact hinv b hb
        · rcases List.mem_singleton.mp hb with rfl
          simp [codeInv]
      · intro i x hx _
        rw [show (step db (Op.createCode code sede_id sede_nombre tC ok)).codes
            = db.codes ++ [⟨upper code, sede_id, sede_nombre, false, none, none, tC⟩] from h]
        have hlen : i < db.codes.length := by
          rcases List.getElem?_eq_some.mp hx with ⟨hl, _⟩
          exact hl
        rw [List.getElem?_append_left hlen]
        exact hx

/-- C8, witness: on a state whose single code is used by "M1", creating a new
code preserves the invariant and leaves the used code row unchanged at its
position. -/
theorem codeInv_preserved_witness :
    dbCodeInv (step dbUsedCode (Op.createCode "NEW" "S2" "Site Two" 5 true)) ∧
    (step dbUsedCode (Op.createCode "NEW" "S2" "Site Two" 5 true)).codes[0]?
      = some ⟨"ABC-123", "S1", "Site One", true, some "M1", some 0, 0⟩ :=
  ⟨(codeInv_preserved dbUsedCode (Op.createCode "NEW" "S2" "Site Two" 5 true) (by decide)).1,
   (codeInv_preserved dbUsedCode (Op.createCode "NEW" "S2" "Site Two" 5 true) (by decide)).2
     0 ⟨"ABC-123", "S1", "Site One", true, some "M1", some 0, 0⟩ (by decide) (by decide)⟩

/-- C9: codes are case-normalized to uppercase on all reads and writes —
`create_activation_code` fails with 409 (ConflictError) exactly when a stored
code equals `upper code`, on success it stores `upper code` with empty
used-markers, and `activate_device` behaves identically on `s` and on
`upper s`. -/
theorem code_normalization (db : DB) (s sede_id sede_nombre : String) (tC : Rat)
    (okC : Bool) (mac api_key : String) (tU tA tS : Rat) (ok : Bool) :
    ((create_activation_code db s sede_id sede_nombre tC okC).1
        = Resp.httpError 409 "Código ya existe"
      ↔ (db.codes.find? (fun x => x.code == upper s)).isSome = true) ∧
    (db.codes.find? (fun x => x.code == upper s) = none →
      (create_activation_code db s sede_id sede_nombre tC true).2.codes
        = db.codes ++ [⟨upper s, sede_id, sede_nombre, false, none, none, tC⟩]) ∧
    activate_device db s mac api_key tU tA tS ok
      = activate_device db (upper s) mac api_key tU tA tS ok := by
  refine ⟨?_, ?_, ?_⟩
  · rcases hf : db.codes.find? (fun x => x.code == upper s) with _ | a
    · unfold create_activation_code
      rw [hf]
      cases okC with
      | false => simp
      | true => simp
    · unfold create_activation_code
      rw [hf]
      simp
  · intro h
    unfold create_activation_code
    rw [h]
    simp
  · unfold activate_device
    rw [upper_idem]

/-- C9, witness: at the one-code state, creating "new-1" does not conflict and
stores "NEW-1", and activating with "new-1" equals activating with "NEW-1". -/
theorem code_normalization_witness :
    ((create_activation_code dbUnusedNoDev "new-1" "S9" "Site Nine" 7 true).1
        = Resp.httpError 409 "Código ya existe"
      ↔ (dbUnusedNoDev.codes.find? (fun x => x.code == upper "new-1")).isSome = true) ∧
    (create_activation_code dbUnusedNoDev "new-1" "S9" "Site Nine" 7 true).2.codes
      = dbUnusedNoDev.codes ++ [⟨upper "new-1", "S9", "Site Nine", false, none, none, 7⟩] ∧
    activate_device dbUnusedNoDev "new-1" "M9" "K9" 1 2 3 true
      = activate_device dbUnusedNoDev (upper "new-1") "M9" "K9" 1 2 3 true :=
  ⟨(code_normalization dbUnusedNoDev "new-1" "S9" "Site Nine" 7 true "M9" "K9" 1 2 3 true).1,
   (code_normalization dbUnusedNoDev "new-1" "S9" "Site Nine" 7 true "M9" "K9" 1 2 3 true).2.1
     (by decide),
   (code_normalization dbUnusedNoDev "new-1" "S9" "Site Nine" 7 true "M9" "K9" 1 2 3 true).2.2⟩

/-- C10, counterexample: the new device's `activated_at` and `last_seen` come
from two distinct `utcnow()` reads (two separate column defaults), so a first
activation whose reads differ creates a device with `last_seen` different from
`activated_at` — against the claim that they are equal. -/
theorem new_device_lastSeen_ne_activatedAt :
    (activate_device dbUnusedNoDev "ABC-123" "M1" "KEY9" 1 2 7 true).2.devices
      = [⟨"M1", "S1", "Site One", "KEY9", 2, 7⟩] ∧
    ¬ ((⟨"M1", "S1", "Site One", "KEY9", 2, 7⟩ : Device).activated_at
        = (⟨"M1", "S1", "Site One", "KEY9", 2, 7⟩ : Device).last_seen) := by
  decide

/-- C10, amended: a device created by a successful first activation has its
`last_seen` set to the clock read taken at creation for that column (not
necessarily equal to `activated_at`, which is a separate read), and while less
than 600 seconds have passed since that read — in particular immediately after
activation, before any telemetry — the status derivation classifies the device
as ONLINE. -/
theorem new_device_online (db : DB) (code mac api_key : String) (tU tA tS now : Rat)
    (a : ActivationCode)
    (hc : db.codes.find? (fun x => x.code == upper code) = some a)
    (hu : a.is_used = false)
    (hd : db.devices.find? (fun d => d.mac_address == mac) = none)
    (hnow : now - tS < 600) :
    (activate_device db code mac api_key tU tA tS true).2.devices
      = db.devices ++ [⟨mac, a.sede_id, a.sede_nombre, api_key, tA, tS⟩] ∧
    deviceStatus now ⟨mac, a.sede_id, a.sede_nombre, api_key, tA, tS⟩ = Status.online := by
  constructor
  · rw [activate_success_state db code mac api_key tU tA tS a hc hu hd]
  · simp [deviceStatus, deriveStatus, hnow]

/-- C10, witness: the first activation at clock reads 2 (`activated_at`) and 7
(`last_seen`) yields a device that at time 100 (93 seconds later) is ONLINE. -/
theorem new_device_online_witness :
    (activate_device dbUnusedNoDev "ABC-123" "M1" "KEY9" 1 2 7 true).2.devices
      = dbUnusedNoDev.devices ++ [⟨"M1", "S1", "Site One", "KEY9", 2, 7⟩] ∧
    deviceStatus 100 ⟨"M1", "S1", "Site One", "KEY9", 2, 7⟩ = Status.online :=
  new_device_online dbUnusedNoDev "ABC-123" "M1" "KEY9" 1 2 7 100
    ⟨"ABC-123", "S1", "Site One", false, none, none, 0⟩ (by decide) rfl rfl (by norm_num)

end MakerIoT
